import Mathlib

/-
Verification of the historization subsystem in `opcua/server/history.py`
(the `HistoryDict` in-memory backend, the continuation-point codec and the
`HistoryManager` orchestration), by a shallow embedding into Lean 4.

Modelling conventions:
  * Node identifiers are `Nat`.
  * All timestamps (`datetime` values) are `Nat` microseconds since the epoch;
    `datetime` subtraction and comparison becomes `Nat` subtraction and
    comparison.  A negative Python `timedelta` compared with a positive period
    is `False`, exactly as truncated `Nat` subtraction gives `0 > period = False`,
    so truncation at zero is faithful for every comparison the code performs.
  * `timedelta` retention periods are `Nat` microseconds; `None` and
    `timedelta(0)` are both falsy in Python, modelled by `0`.
  * The `count` cap is a `Nat`; `0` is falsy (`count=0` means "no cap").
  * Python `dict`s become association lists with lookup / insert / erase.
  * Raised exceptions become `Except PyError` results; the functional
    embedding returns an error instead of mutating state and raising.
-/

namespace PyOpcUa

/-- The kinds of exception the embedded code paths can raise. `uaError` stands
for `ua.UaError`, the configuration error raised by `historize`. -/
inductive PyError where
  | keyError
  | indexError
  | valueError
  | typeError
  | structError
  | attributeError
  | uaError
deriving DecidableEq, Repr

/-- A `ua.DataValue`: a captured value with source and server timestamps
(timestamps in microseconds since the epoch). -/
structure DataValue where
  value : Nat
  SourceTimestamp : Nat
  ServerTimestamp : Nat
deriving DecidableEq, Repr

/-- Association-list lookup, modelling `d[k]` / `k in d` on a Python dict. -/
def alistLookup {α : Type} (k : Nat) : List (Nat × α) → Option α
  | [] => none
  | (k', v) :: rest => if k = k' then some v else alistLookup k rest

/-- Association-list insert/overwrite, modelling `d[k] = v`. -/
def alistInsert {α : Type} (k : Nat) (v : α) : List (Nat × α) → List (Nat × α)
  | [] => [(k, v)]
  | (k', v') :: rest =>
      if k = k' then (k, v) :: rest else (k', v') :: alistInsert k v rest

/-- Association-list removal, modelling `del d[k]` (on a present key). -/
def alistErase {α : Type} (k : Nat) : List (Nat × α) → List (Nat × α)
  | [] => []
  | (k', v') :: rest => if k = k' then rest else (k', v') :: alistErase k rest

/-
Continuation-point codec, from the module-level functions:

    def datetime_to_bytes(dt):
        time_float = time.mktime(dt.timetuple()) + dt.microsecond / 1E6
        return struct.pack("!L", time_float)

    def bytes_to_datetime(data):
        time_float = struct.unpack('!L', data)[0]
        return datetime.fromtimestamp(time_float)
-/

/-- `struct.pack("!L", x)`: 4 bytes, big endian, of the integer part of `x`;
`struct.error` (here `none`) when the value does not fit an unsigned 32-bit
integer. -/
def pack_L (n : Nat) : Option (List Nat) :=
  if n < 4294967296 then
    some [n / 16777216 % 256, n / 65536 % 256, n / 256 % 256, n % 256]
  else
    none

/-- `struct.unpack('!L', data)[0]`: requires exactly 4 bytes, `struct.error`
(here `none`) otherwise. -/
def unpack_L (b : List Nat) : Option Nat :=
  match b with
  | [b0, b1, b2, b3] => some (b0 * 16777216 + b1 * 65536 + b2 * 256 + b3)
  | _ => none

/-- `datetime_to_bytes(dt)`. With `dt` holding `t` microseconds since the
epoch, `mktime(dt.timetuple())` is the whole-second part `t / 1000000` and
`dt.microsecond / 1E6` is the fractional part, so packing truncates
`time_float` to `t / 1000000` seconds. -/
def datetime_to_bytes (t : Nat) : Option (List Nat) :=
  pack_L (t / 1000000)

/-- `bytes_to_datetime(data)`: unpack whole seconds, then
`datetime.fromtimestamp` yields the datetime at that whole second
(microsecond field zero), i.e. `seconds * 1000000` microseconds. -/
def bytes_to_datetime (b : List Nat) : Option Nat :=
  (unpack_L b).map (fun n => n * 1000000)

/-
HistoryDict, the in-memory backend:

    class HistoryDict(HistoryStorageInterface):
        def __init__(self):
            self._datachanges = {}
            self._datachanges_period = {}
            self._events = {}
-/

/-- The state of a `HistoryDict` (the `_events` member is touched by no
claim and is omitted). -/
structure HistoryDict where
  datachanges : List (Nat × List DataValue)
  datachanges_period : List (Nat × (Nat × Nat))
deriving DecidableEq, Repr

/-- A freshly constructed `HistoryDict()`. -/
def HistoryDict.empty : HistoryDict := ⟨[], []⟩

/-- `HistoryDict.new_node(node, period, count=0)`:
`self._datachanges[node] = []` and
`self._datachanges_period[node] = period, count`. -/
def HistoryDict.new_node (s : HistoryDict) (node period count : Nat) :
    HistoryDict :=
  { datachanges := alistInsert node [] s.datachanges,
    datachanges_period := alistInsert node (period, count) s.datachanges_period }

/-- The age-eviction loop of `save_datavalue`:
`while now - data[0].ServerTimestamp > period: data.pop(0)`.
When every element has been popped, the next condition evaluation indexes
`data[0]` on an empty list: an `IndexError`, modelled by `none`. -/
def ageEvict (now period : Nat) : List DataValue → Option (List DataValue)
  | [] => none
  | dv :: rest =>
      if now - dv.ServerTimestamp > period then ageEvict now period rest
      else some (dv :: rest)

/-- The expression `data[-count:]` under `count ≠ 0` and `len(data) > count`:
the last `count` elements. -/
def lastSlice (count : Nat) (l : List DataValue) : List DataValue :=
  l.drop (l.length - count)

/-- `HistoryDict.save_datavalue(node, datavalue)`.  Both dict indexings raise
`KeyError` on an unknown node.  `data.append` and `data.pop(0)` mutate the
stored list in place, so the stored state after the call is the appended,
age-evicted list.  The final statement `data = data[-count:]` only rebinds
the local name `data` to a fresh slice: it never reaches
`self._datachanges[node]`, so the count trim has no effect on stored state
(the slice is computed here into the unused `_trimmed` for fidelity).
`now` is `datetime.now()` read once before the eviction loop, passed as an
argument. -/
def HistoryDict.save_datavalue (s : HistoryDict) (node : Nat) (dv : DataValue)
    (now : Nat) : Except PyError HistoryDict :=
  match alistLookup node s.datachanges with
  | none => .error .keyError
  | some data =>
    match alistLookup node s.datachanges_period with
    | none => .error .keyError
    | some pc =>
      let period := pc.1
      let count := pc.2
      let data := data ++ [dv]
      match (if period ≠ 0 then ageEvict now period data else some data) with
      | none => .error .indexError
      | some data2 =>
        let _trimmed :=
          if count ≠ 0 ∧ data2.length > count then lastSlice count data2
          else data2
        .ok { s with datachanges := alistInsert node data2 s.datachanges }

/-- `HistoryDict.read_datavalues(node, start, end, nb_values)`: empty list for
an unknown node, otherwise the records with
`start <= dv.ServerTimestamp <= end`, in stored order.  The `nb_values`
argument is accepted and ignored, and the result is a flat list, not a
`(records, hasMore)` pair. -/
def HistoryDict.read_datavalues (s : HistoryDict)
    (node start endt _nb_values : Nat) : List DataValue :=
  match alistLookup node s.datachanges with
  | none => []
  | some data =>
      data.filter (fun dv =>
        decide (start ≤ dv.ServerTimestamp ∧ dv.ServerTimestamp ≤ endt))

/-
HistoryManager, from `class HistoryManager(object)`.  The external
subscription engine is out of scope: `self._sub` is modelled by the flag
`hasSub` (whether `_create_subscription` has run) and a subscription item
handle by a `Nat` in the `handlers` map.
-/

/-- The state of a `HistoryManager`: its `HistoryDict` storage, whether
`self._sub` holds a subscription (`None` initially), and the `_handlers`
dict mapping a node to its subscription handle. -/
structure HistoryManager where
  storage : HistoryDict
  hasSub : Bool
  handlers : List (Nat × Nat)
deriving DecidableEq, Repr

/-- A freshly constructed `HistoryManager`. -/
def HistoryManager.start : HistoryManager := ⟨HistoryDict.empty, false, []⟩

/-- `HistoryManager.historize(node, period, count)`: lazily create the
subscription, raise `ua.UaError` if the node is already in `_handlers`,
otherwise register the node with the storage and record the handler. -/
def HistoryManager.historize (m : HistoryManager) (node period count : Nat) :
    Except PyError HistoryManager :=
  let m := if !m.hasSub then { m with hasSub := true } else m
  if (alistLookup node m.handlers).isSome then .error .uaError
  else
    .ok { m with storage := m.storage.new_node node period count,
                 handlers := alistInsert node node m.handlers }

/-- `HistoryManager.dehistorize(node)`:
`self._sub.unsubscribe(self._handlers[node])` followed by
`del(self._handlers[node])`.  The attribute access on `self._sub` raises
`AttributeError` when no subscription was ever created (`self._sub is None`);
otherwise the argument `self._handlers[node]` raises `KeyError` when the node
is not in the map.  No membership check precedes the indexing, and the
storage is never touched. -/
def HistoryManager.dehistorize (m : HistoryManager) (node : Nat) :
    Except PyError HistoryManager :=
  if !m.hasSub then .error .attributeError
  else
    match alistLookup node m.handlers with
    | none => .error .keyError
    | some _ => .ok { m with handlers := alistErase node m.handlers }

/-- The fields of a `ua.HistoryReadValueId` the read path uses: the node and
the client-supplied continuation point (a byte string, empty when absent). -/
structure HistoryReadValueId where
  NodeId : Nat
  ContinuationPoint : List Nat
deriving DecidableEq, Repr

/-- The fields of `ua.ReadRawModifiedDetails` the read path uses. -/
structure ReadRawModifiedDetails where
  StartTime : Nat
  EndTime : Nat
  NumValuesPerNode : Nat
deriving DecidableEq, Repr

/-- `HistoryManager.read_datavalue_history(rv, details)` running against the
default `HistoryDict` storage.

    starttime = details.StartTime
    if rv.ContinuationPoint:
        starttime = bytes_to_datetime(rv.ContinuationPoint)
    dv, cont = self.storage.read_datavalues(rv.NodeId, starttime,
                                            details.EndTime,
                                            details.NumValuesPerNode)
    if cont:
        cont = datetime_to_bytes(dv[-1].SourceTimeStamp)
    return dv, cont

`bytes_to_datetime` raises `struct.error` on a wrong-length token, with no
`try` around it.  `HistoryDict.read_datavalues` returns a flat record list,
so the tuple unpack `dv, cont = ...` raises `ValueError` unless exactly two
records matched; when exactly two match, `dv` and `cont` are single
`DataValue` objects, `if cont:` is true (default object truthiness) and
`dv[-1]` subscripts a `DataValue`, raising `TypeError`.  Every path through
the match therefore raises. -/
def HistoryManager.read_datavalue_history (m : HistoryManager)
    (rv : HistoryReadValueId) (details : ReadRawModifiedDetails) :
    Except PyError (List DataValue × List Nat) :=
  let starttimeRes : Except PyError Nat :=
    if rv.ContinuationPoint = [] then .ok details.StartTime
    else
      match bytes_to_datetime rv.ContinuationPoint with
      | none => .error .structError
      | some t => .ok t
  match starttimeRes with
  | .error e => .error e
  | .ok starttime =>
    match m.storage.read_datavalues rv.NodeId starttime details.EndTime
        details.NumValuesPerNode with
    | [_, _] => .error .typeError
    | _ => .error .valueError

/-- `ua.StatusCodes.BadNotWritable`. -/
def BadNotWritable : Nat := 0x803B0000

/-- An element of the list returned by `update_history`: either a genuine
`ua.HistoryUpdateResult` carrying a status code, or a reference to the
results list itself. -/
inductive UpdateResultEntry where
  | updateResult (statusCode : Nat)
  | selfRef
deriving DecidableEq, Repr

/-- `HistoryManager.update_history(params)`:

    results = []
    for details in params.HistoryUpdateDetails:
        result = ua.HistoryUpdateResult()
        result.StatusCode = ua.StatusCode(ua.StatusCodes.BadNotWritable)
        results.append(results)
    return results

Each iteration builds a `HistoryUpdateResult` with `BadNotWritable` and then
discards it: `results.append(results)` appends the results list to itself,
so the returned list holds one self-reference per item and no
`HistoryUpdateResult`.  Storage is never touched; the manager state is
returned unchanged alongside the results. -/
def HistoryManager.update_history (m : HistoryManager)
    (historyUpdateDetails : List Nat) :
    HistoryManager × List UpdateResultEntry :=
  (m, historyUpdateDetails.map (fun _ => UpdateResultEntry.selfRef))

/-- Test-harness helper: a sequence of `save_datavalue` calls (all with the
same `now`), stopping at the first raised error. -/
def appendAll (s : HistoryDict) (node now : Nat) :
    List DataValue → Except PyError HistoryDict
  | [] => .ok s
  | dv :: rest =>
    match s.save_datavalue node dv now with
    | .error e => .error e
    | .ok s' => appendAll s' node now rest

/-- Test fixture: record number `i`, with source and server timestamps at
`i` seconds past the epoch. -/
def mkRecord (i : Nat) : DataValue := ⟨i, i * 1000000, i * 1000000⟩

/-- Test fixture: a `HistoryDict` holding five records for node 1 (no
retention period, no count cap), as left by `new_node 1 0 0` followed by
five `save_datavalue` calls. -/
def fiveRecordStore : HistoryDict :=
  ⟨[(1, [mkRecord 1, mkRecord 2, mkRecord 3, mkRecord 4, mkRecord 5])],
   [(1, (0, 0))]⟩

/-- Test fixture: a manager whose storage is `fiveRecordStore`, with node 1
historized (subscription created, handler recorded). -/
def fiveRecordManager : HistoryManager := ⟨fiveRecordStore, true, [(1, 1)]⟩

/-- Sanity check: `fiveRecordStore` is exactly the storage produced by
registering node 1 and appending the five records through the API. -/
theorem fiveRecordStore_reachable :
    appendAll (HistoryDict.empty.new_node 1 0 0) 1 0
      [mkRecord 1, mkRecord 2, mkRecord 3, mkRecord 4, mkRecord 5]
      = .ok fiveRecordStore := rfl

/-- C1: the maxCount cap is never enforced.  Historizing node 1 with
maxCount = 3 and no retention period, appending five values and reading the
full range returns all five records v1..v5, not v3,v4,v5: the final
statement `data = data[-count:]` of `save_datavalue` rebinds a local name,
leaving the stored list untrimmed. -/
theorem save_datavalue_count_trim_dead :
    (appendAll (HistoryDict.empty.new_node 1 0 3) 1 0
        [mkRecord 1, mkRecord 2, mkRecord 3, mkRecord 4, mkRecord 5]).map
      (fun s => s.read_datavalues 1 0 10000000 0)
    = .ok [mkRecord 1, mkRecord 2, mkRecord 3, mkRecord 4, mkRecord 5] := rfl

/-- C2: paging fails outright.  Reading node 1 (five eligible records) with
no continuation point and NumValuesPerNode = 2 raises `ValueError` instead
of returning records 1-2 with a continuation point: `HistoryDict.
read_datavalues` returns a flat five-element list which the caller unpacks
as a `(records, hasMore)` pair. -/
theorem read_datavalue_history_paging_raises :
    fiveRecordManager.read_datavalue_history ⟨1, []⟩ ⟨0, 10000000, 2⟩
      = .error .valueError := rfl

/-- C3: `update_history` with 3 items returns a list of 3 entries, but each
entry is the results list itself (`results.append(results)`), not a
`HistoryUpdateResult` carrying BadNotWritable; the constructed results are
discarded.  The manager state is unchanged. -/
theorem update_history_appends_list_to_itself :
    HistoryManager.start.update_history [7, 8, 9]
      = (HistoryManager.start, [.selfRef, .selfRef, .selfRef]) := by decide

/-- C4: dehistorizing a node that is not historized raises a lookup error,
not a ConfigurationError: with another node historized, `self._handlers[node]`
raises `KeyError`; on a manager that never historized anything, `self._sub`
is `None` and the call raises `AttributeError`.  No membership check
precedes the map access. -/
theorem dehistorize_unknown_node_lookup_error :
    ((HistoryManager.start.historize 1 604800000000 0).bind
        (fun m => m.dehistorize 2) = .error .keyError)
    ∧ HistoryManager.start.dehistorize 2 = .error .attributeError :=
  ⟨rfl, rfl⟩

/-- C5: `read_datavalues` ignores its `nb_values` bound and returns a flat
list rather than a `(records, hasMore)` pair: querying five in-range records
with maxResults = 2 returns all five. -/
theorem read_datavalues_ignores_nb_values :
    fiveRecordStore.read_datavalues 1 0 10000000 2
      = [mkRecord 1, mkRecord 2, mkRecord 3, mkRecord 4, mkRecord 5] := by
  decide

/-- C6 counterexample: appending a value for a node unknown to the backend is
not a no-op: `data = self._datachanges[node]` raises `KeyError`. -/
theorem save_datavalue_unknown_node_raises :
    HistoryDict.empty.save_datavalue 42 (mkRecord 1) 0 = .error .keyError := rfl

/-- C6 amended: for a node unknown to the backend, querying values returns an
empty result without raising, but appending a value raises `KeyError` rather
than being a no-op. -/
theorem unknown_node_query_empty_append_raises
    (s : HistoryDict) (node start endt nb : Nat) (dv : DataValue) (now : Nat)
    (h : alistLookup node s.datachanges = none) :
    s.read_datavalues node start endt nb = []
    ∧ s.save_datavalue node dv now = .error .keyError := by
  constructor
  · unfold HistoryDict.read_datavalues
    rw [h]
  · unfold HistoryDict.save_datavalue
    rw [h]

/-- C6 witness: the amended statement at the empty store and node 5. -/
theorem unknown_node_query_empty_append_raises_witness :
    HistoryDict.empty.read_datavalues 5 0 10 0 = []
    ∧ HistoryDict.empty.save_datavalue 5 (mkRecord 1) 0 = .error .keyError :=
  unknown_node_query_empty_append_raises HistoryDict.empty 5 0 10 0
    (mkRecord 1) 0 rfl

/-- C7 counterexample: encoding does not succeed for every timestamp.  At the
timestamp 4294967296 seconds past the epoch the packed value no longer fits
`struct.pack("!L", ...)`, which raises `struct.error`, so the round trip
fails rather than reproducing the truncated timestamp. -/
theorem datetime_to_bytes_overflow_raises :
    (datetime_to_bytes (4294967296 * 1000000)).bind bytes_to_datetime
      = none := rfl

/-- Recomposition of the four big-endian bytes produced by `pack_L`. -/
theorem unpack_L_pack_L (n : Nat) (h : n < 4294967296) :
    (pack_L n).bind unpack_L = some n := by
  unfold pack_L
  rw [if_pos h]
  show some (n / 16777216 % 256 * 16777216 + n / 65536 % 256 * 65536
      + n / 256 % 256 * 256 + n % 256) = some n
  congr 1
  omega

/-- C7 amended: for every timestamp whose whole-second value since the epoch
fits an unsigned 32-bit integer, encoding then decoding succeeds and
reproduces the timestamp truncated to whole seconds. -/
theorem codec_round_trip_whole_seconds (t : Nat)
    (h : t / 1000000 < 4294967296) :
    (datetime_to_bytes t).bind bytes_to_datetime
      = some (t / 1000000 * 1000000) := by
  have h1 := unpack_L_pack_L (t / 1000000) h
  unfold datetime_to_bytes
  cases hp : pack_L (t / 1000000) with
  | none => rw [hp] at h1; exact Option.noConfusion h1
  | some l =>
      rw [hp] at h1
      show bytes_to_datetime l = some (t / 1000000 * 1000000)
      unfold bytes_to_datetime
      have h2 : unpack_L l = some (t / 1000000) := h1
      rw [h2]
      rfl

/-- C7 witness: the amended round trip at 1.234567 seconds past the epoch,
reproducing the whole second. -/
theorem codec_round_trip_whole_seconds_witness :
    (datetime_to_bytes 1234567).bind bytes_to_datetime = some 1000000 :=
  codec_round_trip_whole_seconds 1234567 (by decide)

/-- `struct.unpack('!L', ...)` fails on any length other than 4. -/
theorem unpack_L_wrong_length :
    ∀ b : List Nat, b.length ≠ 4 → unpack_L b = none
  | [], _ => rfl
  | [_], _ => rfl
  | [_, _], _ => rfl
  | [_, _, _], _ => rfl
  | [_, _, _, _], h => absurd rfl h
  | _ :: _ :: _ :: _ :: _ :: _, _ => rfl

/-- C8 counterexample: a wrong-length continuation point is not treated as
absent.  With the 3-byte token the read aborts with the propagated
`struct.error`, while the same read with no token takes the nominal-start
path (which with this backend fails later, in the tuple unpack, with a
different error): the two behaviours differ, so the bad token is not
"treated as if no continuation point had been supplied". -/
theorem malformed_cont_point_not_fail_open :
    fiveRecordManager.read_datavalue_history ⟨1, [0, 0, 0]⟩ ⟨0, 10000000, 2⟩
        = .error .structError
    ∧ fiveRecordManager.read_datavalue_history ⟨1, []⟩ ⟨0, 10000000, 2⟩
        = .error .valueError := ⟨rfl, rfl⟩

/-- C8 amended: a non-empty continuation point whose length is not 4 bytes
makes `bytes_to_datetime` raise `struct.error`, which propagates out of
`read_datavalue_history` (there is no handler), aborting the read instead of
falling back to the nominal start time. -/
theorem malformed_cont_point_aborts_read (m : HistoryManager)
    (rv : HistoryReadValueId) (details : ReadRawModifiedDetails)
    (h0 : rv.ContinuationPoint ≠ []) (h4 : rv.ContinuationPoint.length ≠ 4) :
    m.read_datavalue_history rv details = .error .structError := by
  unfold HistoryManager.read_datavalue_history
  rw [if_neg h0]
  unfold bytes_to_datetime
  rw [unpack_L_wrong_length rv.ContinuationPoint h4]
  rfl

/-- C8 witness: the amended statement at a concrete 2-byte token. -/
theorem malformed_cont_point_aborts_read_witness :
    fiveRecordManager.read_datavalue_history ⟨1, [9, 9]⟩ ⟨0, 10000000, 2⟩
      = .error .structError :=
  malformed_cont_point_aborts_read fiveRecordManager ⟨1, [9, 9]⟩
    ⟨0, 10000000, 2⟩ (by decide) (by decide)

/-- C9 counterexample: after successfully dehistorizing node 1, a full-range
query still returns all five stored records: `dehistorize` never touches the
storage, so the in-memory backend does not discard the node's sequence. -/
theorem dehistorize_retains_records :
    (fiveRecordManager.dehistorize 1).map
        (fun m => m.storage.read_datavalues 1 0 10000000 0)
      = .ok [mkRecord 1, mkRecord 2, mkRecord 3, mkRecord 4, mkRecord 5] :=
  rfl

/-- C9 amended: a successful `dehistorize` removes only the handler
registration; the storage (and hence every stored record) is unchanged, so
a subsequent query returns exactly what it returned before. -/
theorem dehistorize_storage_unchanged (m : HistoryManager) (node : Nat)
    (m' : HistoryManager) (h : m.dehistorize node = .ok m') :
    m'.storage = m.storage := by
  unfold HistoryManager.dehistorize at h
  split at h
  · exact Except.noConfusion h
  · split at h
    · exact Except.noConfusion h
    · injection h with h'
      rw [← h']

/-- C9 witness: the amended statement at `fiveRecordManager` and node 1. -/
theorem dehistorize_storage_unchanged_witness :
    (⟨fiveRecordStore, true, []⟩ : HistoryManager).storage
      = fiveRecordManager.storage :=
  dehistorize_storage_unchanged fiveRecordManager 1
    ⟨fiveRecordStore, true, []⟩ rfl

/-- The age-eviction loop never empties the buffer when the last element is
fresh enough to stop it. -/
theorem ageEvict_append_isSome (now period : Nat) (dv : DataValue)
    (h : ¬ now - dv.ServerTimestamp > period) (l : List DataValue) :
    (ageEvict now period (l ++ [dv])).isSome = true := by
  induction l with
  | nil =>
      simp only [List.nil_append, ageEvict, if_neg h]
      rfl
  | cons a l ih =>
      simp only [List.cons_append, ageEvict]
      split
      · exact ih
      · rfl

/-- C10: for a registered node with a nonzero retention period, appending a
record whose ServerTimestamp is at most the period older than the wall clock
succeeds: the age-eviction loop stops at the just-appended record (or
earlier), so `data[0]` is always in bounds and no error is raised. -/
theorem save_datavalue_fresh_record_ok
    (s : HistoryDict) (node : Nat) (data : List DataValue)
    (period count : Nat) (dv : DataValue) (now : Nat)
    (h1 : alistLookup node s.datachanges = some data)
    (h2 : alistLookup node s.datachanges_period = some (period, count))
    (h3 : period ≠ 0)
    (h4 : now - dv.ServerTimestamp ≤ period) :
    ∃ s', s.save_datavalue node dv now = .ok s' := by
  have hs := ageEvict_append_isSome now period dv (by omega) data
  unfold HistoryDict.save_datavalue
  rw [h1, h2]
  simp only [if_pos h3]
  cases he : ageEvict now period (data ++ [dv]) with
  | none => rw [he] at hs; exact Bool.noConfusion hs
  | some d2 => exact ⟨_, rfl⟩

/-- C10 witness: appending a 1-second-old record to a freshly registered
node with a 10-second retention period succeeds. -/
theorem save_datavalue_fresh_record_ok_witness :
    ∃ s', (HistoryDict.empty.new_node 1 10000000 0).save_datavalue 1
        (mkRecord 1) 2000000 = .ok s' :=
  save_datavalue_fresh_record_ok _ 1 [] 10000000 0 (mkRecord 1) 2000000
    rfl rfl (by decide) (by decide)

end PyOpcUa
